import Mathlib

/-!
Verification development for the family expense bot (src/bot.py).

The development shallow-embeds the parts of the program the claims are
about: the numeric and date parsing helpers, the category loading logic,
the exchange-rate lookup, the statistics engine `compute_stats`, and the
dialogue state machine handlers.  Python machine floats are modelled as
exact rationals (all the amounts involved are decimal literals), Python
strings as Lean strings, and fallible code as `Option`-valued functions.
-/

namespace FamilyBot

/-! ## Python float parsing

Two parsers appear in the source with different grammars and both are
modelled: the builtin `float(str)` used by the dialogue amount handler
(`pyFloatBuiltin` below: whitespace, sign, decimal mantissa with an
optional exponent, PEP 515 grouping underscores between digits, and the
case-insensitive special forms `inf`/`infinity`/`nan`), and the pandas
`to_numeric` coercion used by the stats engine (`pyFloat` below, the
plain finite decimal-literal fragment; pandas does not implement
grouping underscores, and its special values are irrelevant to the
structural conclusions proved about the stats engine).  Unicode digit
transliteration is outside both models. -/

def digitsToNat (l : List Char) : Nat :=
  l.foldl (fun n c => n * 10 + (c.toNat - '0'.toNat)) 0

/-! Exact-rational stand-ins for the machine float operations of the
source.  They are routed through `mkRat` so that every produced value is
in canonical form and every operation evaluates inside the kernel (the
library operations on `Rat` are irreducible). -/

def ratAdd (a b : Rat) : Rat :=
  mkRat (a.num * Int.ofNat b.den + b.num * Int.ofNat a.den) (a.den * b.den)

def ratMul (a b : Rat) : Rat := mkRat (a.num * b.num) (a.den * b.den)

def ratDiv (a b : Rat) : Rat :=
  mkRat (a.num * Int.ofNat b.den * (if b.num < 0 then -1 else 1)) (a.den * b.num.natAbs)

def ratNeg (a : Rat) : Rat := mkRat (-a.num) a.den

def ratSum (l : List Rat) : Rat := l.foldl ratAdd (mkRat 0 1)

def ratIsZero (a : Rat) : Bool := a.num = 0

def pow10 (n : Nat) : Rat := mkRat (Int.ofNat (10 ^ n)) 1

/-- Reads an optional leading sign; returns whether it was negative. -/
def readSign : List Char → Bool × List Char
  | '+' :: r => (false, r)
  | '-' :: r => (true, r)
  | l => (false, l)

def takeDigits (l : List Char) : List Char × List Char :=
  (l.takeWhile Char.isDigit, l.dropWhile Char.isDigit)

def stripWs (l : List Char) : List Char :=
  ((l.dropWhile Char.isWhitespace).reverse.dropWhile Char.isWhitespace).reverse

/-- Value of an integer part together with a fractional digit part. -/
def mantissa (ip fp : List Char) : Rat :=
  mkRat (Int.ofNat (digitsToNat ip * 10 ^ fp.length + digitsToNat fp)) (10 ^ fp.length)

/-- Applies the sign and an optional trailing exponent part. -/
def applyExp (neg : Bool) (v : Rat) (rest : List Char) : Option Rat :=
  match rest with
  | [] => some (if neg then ratNeg v else v)
  | c :: r =>
    if c = 'e' || c = 'E' then
      match readSign r with
      | (eneg, r1) =>
        match takeDigits r1 with
        | (ed, r2) =>
          if ed.isEmpty || !r2.isEmpty then none
          else
            some (if eneg then ratDiv (if neg then ratNeg v else v) (pow10 (digitsToNat ed))
                  else ratMul (if neg then ratNeg v else v) (pow10 (digitsToNat ed)))
    else none

def pyFloatCore (l : List Char) : Option Rat :=
  match readSign l with
  | (neg, l1) =>
    match takeDigits l1 with
    | (ip, l2) =>
      match l2 with
      | '.' :: l3 =>
        match takeDigits l3 with
        | (fp, l4) =>
          if ip.isEmpty && fp.isEmpty then none
          else applyExp neg (mantissa ip fp) l4
      | _ =>
        if ip.isEmpty then none else applyExp neg (mantissa ip []) l2

/-- Parser for finite decimal literals (whitespace, sign, digits, dot,
exponent).  Used as the numeric branch of the `float()` model below and
as the model of the pandas `to_numeric` coercion of the stats engine. -/
def pyFloat (s : String) : Option Rat := pyFloatCore (stripWs s.data)

/-- Result of a successful Python `float(str)` conversion: a finite
value, a signed infinity, or a not-a-number. -/
inductive PyFloat
  | fin (v : Rat)
  | inf (neg : Bool)
  | nan
deriving DecidableEq, Repr

def lowerAscii (c : Char) : Char :=
  if 'A' ≤ c && c ≤ 'Z' then Char.ofNat (c.toNat + 32) else c

def underscoresOkAux : Char → List Char → Bool
  | _, [] => true
  | prev, c :: rest =>
    if c = '_' then
      (prev.isDigit &&
        (match rest with
         | d :: _ => d.isDigit
         | [] => false)) &&
        underscoresOkAux c rest
    else underscoresOkAux c rest

/-- PEP 515: every grouping underscore must stand directly between two
digits. -/
def underscoresOk : List Char → Bool
  | [] => true
  | c :: rest => c ≠ '_' && underscoresOkAux c rest

/-- Model of the builtin `float(s)`: surrounding whitespace, an optional
sign, then the case-insensitive special forms `inf`, `infinity` or
`nan`, or a decimal literal with optional grouping underscores and an
optional exponent.  `none` models the raised `ValueError`. -/
def pyFloatBuiltin (s : String) : Option PyFloat :=
  let l := stripWs s.data
  if !underscoresOk l then none
  else
    let l := l.filter (fun c => c ≠ '_')
    match readSign l with
    | (neg, l1) =>
      let low := l1.map lowerAscii
      if low = "inf".data || low = "infinity".data then some (.inf neg)
      else if low = "nan".data then some .nan
      else (pyFloatCore l).map .fin

/-- Model of `s.replace(",", ".")` (used before every amount parse). -/
def normalizeComma (s : String) : String :=
  String.mk (s.data.map (fun c => if c = ',' then '.' else c))

/-- The same amount written with a comma as the decimal separator. -/
def commaVariant (s : String) : String :=
  String.mk (s.data.map (fun c => if c = '.' then ',' else c))

/-! ## Dates

`month_of` in the source is `strptime(date_str, "%d.%m.%Y").strftime("%Y-%m")`.
The date parser below mirrors `strptime` with that fixed format: one or two
digits for day and month, up to four digits for the year, full calendar
validation including leap years. -/

structure YMD where
  y : Nat
  m : Nat
  d : Nat
deriving DecidableEq, Repr

def splitOnChar (sep : Char) : List Char → List (List Char)
  | [] => [[]]
  | c :: cs =>
    match splitOnChar sep cs with
    | [] => [[]]
    | h :: t => if c = sep then [] :: h :: t else (c :: h) :: t

def isLeap (y : Nat) : Bool := y % 4 = 0 && (y % 100 ≠ 0 || y % 400 = 0)

def daysInMonth (y m : Nat) : Nat :=
  if m = 2 then (if isLeap y then 29 else 28)
  else if m = 4 || m = 6 || m = 9 || m = 11 then 30
  else 31

def allDigits (l : List Char) : Bool := l.all Char.isDigit

/-- Model of `datetime.strptime(s, "%d.%m.%Y")`: three dot-separated digit
groups (widths at most 2, 2, 4), calendar-validated. -/
def parseDate (s : String) : Option YMD :=
  match splitOnChar '.' s.data with
  | [ds, ms, ys] =>
    if !ds.isEmpty && ds.length ≤ 2 && allDigits ds &&
       !ms.isEmpty && ms.length ≤ 2 && allDigits ms &&
       !ys.isEmpty && ys.length ≤ 4 && allDigits ys then
      match digitsToNat ds, digitsToNat ms, digitsToNat ys with
      | d, m, y =>
        if 1 ≤ m && m ≤ 12 && 1 ≤ d && d ≤ daysInMonth y m && 1 ≤ y then
          some ⟨y, m, d⟩
        else none
    else none
  | _ => none

def natStr (n : Nat) : String := String.mk (Nat.toDigits 10 n)

def pad2 (n : Nat) : String := if n < 10 then "0" ++ natStr n else natStr n

/-- Rendering of `strftime("%Y-%m")`: the year-month truncation of a date. -/
def yearMonthStr (y m : Nat) : String := natStr y ++ "-" ++ pad2 m

/-- Rendering of `strftime("%d.%m.%Y")`. -/
def fmtDate (x : YMD) : String := pad2 x.d ++ "." ++ pad2 x.m ++ "." ++ natStr x.y

/-- `month_of(date_str)` from the source: parse with the storage format,
render the year-month key; `none` models the `ValueError` raised on an
unparsable date. -/
def month_of (s : String) : Option String :=
  (parseDate s).map (fun x => yearMonthStr x.y x.m)

/-- Numeric key under which calendar dates compare chronologically. -/
def dateKey (x : YMD) : Nat := x.y * 10000 + x.m * 100 + x.d

/-! ## Category loading

`load_categories` reads column A of the Config sheet; its source argument
is `none` when the sheet access raises (the `except` branch) and
`some col` with the raw column values otherwise. -/

def defaultCats : List String := ["Food", "Transport", "Entertainment", "Other"]

/-- Model of Python `str.strip()`. -/
def pyStrip (s : String) : String := String.mk (stripWs s.data)

def validateAux (seen : List String) : List String → List String
  | [] => []
  | c :: cs =>
    let t := pyStrip c
    if t ≠ "" ∧ t ∉ seen then t :: validateAux (t :: seen) cs
    else validateAux seen cs

/-- `validate_categories`: strip, drop blanks, deduplicate keeping the
first occurrence. -/
def validate_categories (categories : List String) : List String :=
  if categories = [] then [] else validateAux [] categories

/-- `load_categories`: strip blanks, skip the header row, validate; an
empty result stays empty, while an access error falls back to the fixed
default list. -/
def load_categories : Option (List String) → List String
  | none => defaultCats
  | some colRaw =>
    let col := colRaw.filterMap (fun c => let t := pyStrip c; if t = "" then none else some t)
    let categories := if col.length > 1 then col.drop 1 else []
    let cats := validate_categories categories
    if cats = [] then [] else cats

/-- `initialize_categories` at process start: a failed connection test or
an empty load both degrade to the default list. -/
def initialize_categories (connOk : Bool) (src : Option (List String)) : List String :=
  if !connOk then defaultCats
  else
    let cats := load_categories src
    if cats = [] then defaultCats else cats

/-- The `/reloadcats` handler assigns `CATS = load_categories()` with no
further fallback; the returned list is the new effective category list. -/
def reload_cats (src : Option (List String)) : List String := load_categories src

/-! ## Exchange-rate lookup

`get_exchange_rate` performs one HTTP GET keyed by the source currency
code.  The network is modelled as a function from the requested source
code to an optional response; `none` models a raised exception (timeout,
connection error), which the `except` branch converts to `None`. -/

structure HttpResp where
  status : Nat
  rates : List (String × Rat)
deriving DecidableEq, Repr

/-- The `currency_map` symbol-to-code table, identity elsewhere. -/
def currencyCode (c : String) : String :=
  if c = "₽" then "RUB"
  else if c = "дин" then "RSD"
  else if c = "€" then "EUR"
  else if c = "¥" then "JPY"
  else if c = "$" then "USD"
  else c

/-- `get_exchange_rate(from, to)`: identity pair short-circuits to `1.0`;
otherwise the response must have status 200 and a truthy rate entry for
the target code (`if rate:` makes a `0` rate fall through to `None`). -/
def get_exchange_rate (fetch : String → Option HttpResp) (fromCur toCur : String) :
    Option Rat :=
  if fromCur = toCur then some 1
  else
    match fetch (currencyCode fromCur) with
    | none => none
    | some resp =>
      if resp.status = 200 then
        match resp.rates.find? (fun p => p.1 == currencyCode toCur) with
        | some p => if ratIsZero p.2 then none else some p.2
        | none => none
      else none

/-! ## Statistics engine

`compute_stats` works on the snapshot returned by `sheet.get_all_records()`:
a header row (the column names) and one key-to-value mapping per data row.
The pandas frame is embedded as the list of normalized working rows
(`WRow`), with the `Amount` column already coerced to a rational exactly
as the source coerces it before any filtering.  The returned summary
string is represented structurally by `StatsResult`; each constructor
corresponds to exactly one `return` site of the source. -/

structure Snapshot where
  cols : List String
  rows : List (List (String × String))
deriving DecidableEq, Repr

/-- The `column_mapping` rename table (Russian labels to English ones,
identity on everything else). -/
def normName (s : String) : String :=
  if s = "Сумма" then "Amount"
  else if s = "Валюта" then "Currency"
  else if s = "Категория" then "Category"
  else if s = "Дата" then "Date"
  else if s = "Месяц" then "Month"
  else s

def normCols (snap : Snapshot) : List String := snap.cols.map normName

def lookupNorm (row : List (String × String)) (key : String) : Option String :=
  (row.find? (fun p => normName p.1 == key)).map (fun p => p.2)

/-- Amount coercion: `to_numeric(str.replace(",", "."), errors="coerce").fillna(0)`. -/
def coerceAmount (v : String) : Rat := (pyFloat (normalizeComma v)).getD 0

structure WRow where
  amount : Rat
  currency : String
  month : String
  category : String
  dateRaw : String
deriving DecidableEq, Repr

def toWRow (row : List (String × String)) : WRow :=
  { amount := coerceAmount ((lookupNorm row "Amount").getD "")
  , currency := (lookupNorm row "Currency").getD ""
  , month := (lookupNorm row "Month").getD ""
  , category := (lookupNorm row "Category").getD ""
  , dateRaw := (lookupNorm row "Date").getD "" }

/-- Conversion details for one source currency (`conversion_details[cur]`). -/
structure ConvDetail where
  rate : Rat
  original_amount : Rat
  converted_amount : Rat
deriving DecidableEq, Repr

abbrev Details := List (String × ConvDetail)

/-- Structural form of the summary text `compute_stats` returns:
`colError c` is the string "Error: c column not found", `noData` is the
literal no-data sentinel, `rateFailure src tgt` is the failed-conversion
message naming the pair, `grouped` carries one per-currency sum line per
entry, `total` carries the single grand total and its currency label, and
`exn` marks the paths where the source raises an uncaught exception
(an unparsable fixed-format period bound, or a currency access on a
snapshot with no Currency column). -/
inductive StatsResult
  | colError (col : String)
  | noData
  | rateFailure (src tgt : String)
  | grouped (lines : List (String × Rat))
  | total (amount : Rat) (currency : String)
  | exn
deriving DecidableEq, Repr

/-- Python truthiness of the optional string arguments (`if month:` and
friends treat an empty string like an absent argument). -/
def normOpt : Option String → Option String
  | some s => if s = "" then none else some s
  | none => none

/-- The snapshot preparation and period filtering stage of `compute_stats`:
Amount column check and coercion, then the month filter or the inclusive
date-range filter (rows whose date fails to parse are dropped; an
unparsable range bound raises). -/
def periodStage (snap : Snapshot) (month dateFrom dateTo : Option String) :
    StatsResult ⊕ List WRow :=
  if "Amount" ∉ normCols snap then .inl (.colError "Amount")
  else
    match normOpt month with
    | some m =>
      if "Month" ∉ normCols snap then .inl (.colError "Month")
      else .inr ((snap.rows.map toWRow).filter (fun r => r.month == m))
    | none =>
      match normOpt dateFrom, normOpt dateTo with
      | some a, some b =>
        if "Date" ∉ normCols snap then .inl (.colError "Date")
        else
          match parseDate a, parseDate b with
          | some ka, some kb =>
            .inr ((snap.rows.map toWRow).filter (fun r =>
              match parseDate r.dateRaw with
              | some k => decide (dateKey ka ≤ dateKey k) && decide (dateKey k ≤ dateKey kb)
              | none => false))
          | _, _ => .inl .exn
      | _, _ => .inr (snap.rows.map toWRow)

/-- The category filter (`df = df[df["Category"] == cat]` unless "All"). -/
def catFilter (cat : String) (rows : List WRow) : List WRow :=
  if cat = "All" then rows else rows.filter (fun r => r.category == cat)

/-- `df_converted.loc[mask, "Amount"].sum()` for one currency mask. -/
def sumCur (c : String) (rows : List WRow) : Rat :=
  ratSum ((rows.filter (fun w => w.currency == c)).map (fun w => w.amount))

abbrev RateFn := String → String → Option Rat

inductive ConvOut
  | ok (rows : List WRow) (det : Details)
  | fail (src : String)
deriving DecidableEq

/-- The conversion loop over the distinct source currencies: a truthy rate
rescales and relabels that currency's rows and records the detail entry;
a falsy rate (`None` or `0`) aborts with the failing source currency. -/
def convertLoop (rate : RateFn) (tgt : String) :
    List String → List WRow → Details → ConvOut
  | [], rows, det => .ok rows det
  | c :: cs, rows, det =>
    if c = tgt then convertLoop rate tgt cs rows det
    else
      match rate c tgt with
      | none => .fail c
      | some r =>
        if ratIsZero r then .fail c
        else
          convertLoop rate tgt cs
            (rows.map (fun w =>
              if w.currency == c then { w with amount := ratMul w.amount r, currency := tgt }
              else w))
            (det ++ [(c, ⟨r, sumCur c rows, ratMul (sumCur c rows) r⟩)])

def dedupFirstAux (seen : List String) : List String → List String
  | [] => []
  | c :: cs => if c ∈ seen then dedupFirstAux seen cs else c :: dedupFirstAux (c :: seen) cs

/-- `Series.unique()`: distinct values in order of first occurrence. -/
def dedupFirst (l : List String) : List String := dedupFirstAux [] l

def charListLe : List Char → List Char → Bool
  | [], _ => true
  | _ :: _, [] => false
  | a :: as, b :: bs =>
    if a.toNat < b.toNat then true
    else if b.toNat < a.toNat then false
    else charListLe as bs

/-- Lexicographic code-point comparison (the order strings sort by). -/
def strLe (a b : String) : Bool := charListLe a.data b.data

def insertStr (a : String) : List String → List String
  | [] => [a]
  | b :: t => if strLe a b then a :: b :: t else b :: insertStr a t

/-- Ascending sort of the group keys (`groupby` sorts keys by default). -/
def sortStr : List String → List String
  | [] => []
  | a :: t => insertStr a (sortStr t)

/-- The output stage: grouped per-currency sums or the single grand total
labelled with the target currency, else the first row's currency. -/
def finalize (cols : List String) (group : Bool) (tgt : Option String)
    (rows : List WRow) (det : Details) : StatsResult × Details :=
  if group then
    if "Currency" ∉ cols then (.exn, [])
    else
      let lines := (sortStr (dedupFirst (rows.map (fun w => w.currency)))).map
        (fun c => (c, sumCur c rows))
      (if lines = [] then .noData else .grouped lines, det)
  else
    match tgt with
    | some t => (.total (ratSum (rows.map (fun w => w.amount))) t, det)
    | none =>
      if "Currency" ∉ cols then (.exn, [])
      else
        match rows with
        | [] => (.total (mkRat 0 1) "?", det)
        | w :: _ => (.total (ratSum (rows.map (fun r => r.amount))) w.currency, det)

/-- The stage of `compute_stats` after period filtering: category filter,
empty check, optional all-or-nothing conversion, output shaping. -/
def statsCore (rate : RateFn) (cols : List String) (cat : String) (group : Bool)
    (tgt : Option String) (rows : List WRow) : StatsResult × Details :=
  if cat ≠ "All" ∧ "Category" ∉ cols then (.colError "Category", [])
  else if catFilter cat rows = [] then (.noData, [])
  else
    match tgt with
    | some t =>
      if "Currency" ∉ cols then (.exn, [])
      else
        match convertLoop rate t (dedupFirst ((catFilter cat rows).map (fun w => w.currency)))
            (catFilter cat rows) [] with
        | .fail c => (.rateFailure c t, [])
        | .ok rows2 det => finalize cols group (some t) rows2 det
    | none => finalize cols group none (catFilter cat rows) []

/-- `compute_stats(cat, month, date_from, date_to, group_by_currency,
convert_to_currency)` over a snapshot and a rate lookup. -/
def compute_stats (rate : RateFn) (snap : Snapshot) (cat : String)
    (month dateFrom dateTo : Option String) (group : Bool)
    (convertTo : Option String) : StatsResult × Details :=
  match periodStage snap month dateFrom dateTo with
  | .inl r => (r, [])
  | .inr rows => statsCore rate (normCols snap) cat group (normOpt convertTo) rows

/-! ## Dialogue state machine

The conversation handler states, the per-user `context.user_data` draft,
and one transition function per handler.  Prompt deliveries are pure side
effects with no bearing on the claims and are not tracked; the store
append performed on commit is modelled separately by `save_row`. -/

inductive BotState
  | CHOOSE_ACTION | CHOOSE_CAT | TYPING_AMT | CHOOSE_CUR
  | TYPING_CMNT
  | CHOOSE_DT | TYPING_DT
  | STAT_CAT | STAT_TYPE | STAT_DATE_FROM | STAT_DATE_TO | STAT_MONTH
  | STAT_GROUP_CURRENCY | STAT_CONVERT_CURRENCY | STAT_SHOW_DETAILS
deriving DecidableEq, Repr

/-- The `context.user_data` dictionary: every key any handler ever writes. -/
structure Draft where
  cat : Option String := none
  amt : Option PyFloat := none
  cur : Option String := none
  spender : Option String := none
  comment : Option String := none
  stat_cat : Option String := none
  stat_month : Option String := none
  stat_date_from : Option String := none
  stat_date_to : Option String := none
  stat_group_currency : Option Bool := none
  stat_convert_to : Option String := none
  conversion_details : Option Details := none
deriving DecidableEq

/-- `context.user_data.clear()` leaves the empty dictionary. -/
def emptyDraft : Draft := {}

/-- One inbound user action: a text message or an inline-button callback. -/
inductive Inp
  | msg (text : String)
  | cb (data : String)
deriving DecidableEq, Repr

/-- Ambient context a transition may consult: the resolved spender name
(`get_user_info`), the flexible date parser (`dateutil.parser.parse` with
`dayfirst=True`), and the conversion details most recently returned by
`compute_stats` inside `show_statistics_result`. -/
structure Env where
  spender : String
  dparse : String → Option YMD
  convDetails : Details

/-- The to-start button text accepted by every message handler. -/
def isStartText (t : String) : Bool := t == "🏠 To start" || t == "To start"

def choose_action (t : String) (d : Draft) : BotState × Draft :=
  if isStartText t then (.CHOOSE_ACTION, emptyDraft)
  else if t == "💰 Add expense" || t == "Add expense" then (.CHOOSE_CAT, d)
  else if t == "📊 Show statistics" || t == "Show statistics" then (.STAT_CAT, d)
  else (.CHOOSE_ACTION, d)

def choose_cat (t : String) (d : Draft) : BotState × Draft :=
  if isStartText t then (.CHOOSE_ACTION, emptyDraft)
  else (.TYPING_AMT, { d with cat := some t })

/-- The `EnterAmount` handler: `float(text.replace(",", "."))`, re-prompt
on a `ValueError`, store the parsed value (a finite number, an infinity
or a nan) otherwise. -/
def type_amount (t : String) (d : Draft) : BotState × Draft :=
  if isStartText t then (.CHOOSE_ACTION, emptyDraft)
  else
    match pyFloatBuiltin (normalizeComma t) with
    | some v => (.CHOOSE_CUR, { d with amt := some v })
    | none => (.TYPING_AMT, d)

def choose_cur (env : Env) (t : String) (d : Draft) : BotState × Draft :=
  if isStartText t then (.CHOOSE_ACTION, emptyDraft)
  else (.TYPING_CMNT, { d with cur := some t, spender := some env.spender })

def type_comment (i : Inp) (d : Draft) : BotState × Draft :=
  match i with
  | .cb data =>
    if data == "to_start" then (.CHOOSE_ACTION, emptyDraft)
    else (.CHOOSE_DT, { d with comment := some "" })
  | .msg t =>
    if isStartText t then (.CHOOSE_ACTION, emptyDraft)
    else (.CHOOSE_DT, { d with comment := some t })

/-- The date-choice callback handler; the today and yesterday shortcuts
commit via `save_row` (modelled separately) and return to the start menu
without clearing the draft. -/
def choose_dt (data : String) (d : Draft) : BotState × Draft :=
  if data == "to_start" then (.CHOOSE_ACTION, emptyDraft)
  else if data == "today" then (.CHOOSE_ACTION, d)
  else if data == "yesterday" then (.CHOOSE_ACTION, d)
  else (.TYPING_DT, d)

def type_dt (env : Env) (t : String) (d : Draft) : BotState × Draft :=
  if isStartText t then (.CHOOSE_ACTION, emptyDraft)
  else
    match env.dparse t with
    | some _ => (.CHOOSE_ACTION, d)
    | none => (.TYPING_DT, d)

def stat_cat (t : String) (d : Draft) : BotState × Draft :=
  if isStartText t then (.CHOOSE_ACTION, emptyDraft)
  else if t == "All categories" then (.STAT_TYPE, { d with stat_cat := some "All" })
  else if t == "Specific category" then (.STAT_CAT, d)
  else (.STAT_TYPE, { d with stat_cat := some t })

def stat_type (t : String) (d : Draft) : BotState × Draft :=
  if isStartText t then (.CHOOSE_ACTION, emptyDraft)
  else if t == "📜 Last 3 records" then (.CHOOSE_ACTION, d)
  else if t == "📅 Custom period" then (.STAT_DATE_FROM, d)
  else if t == "📆 By months" then (.STAT_MONTH, d)
  else (.STAT_TYPE, d)

def stat_date_from (env : Env) (t : String) (d : Draft) : BotState × Draft :=
  if isStartText t then (.CHOOSE_ACTION, emptyDraft)
  else
    match env.dparse t with
    | some x => (.STAT_DATE_TO, { d with stat_date_from := some (fmtDate x) })
    | none => (.STAT_DATE_FROM, d)

def stat_date_to (env : Env) (t : String) (d : Draft) : BotState × Draft :=
  if isStartText t then (.CHOOSE_ACTION, emptyDraft)
  else
    match env.dparse t with
    | some x => (.STAT_GROUP_CURRENCY, { d with stat_date_to := some (fmtDate x) })
    | none => (.STAT_DATE_TO, d)

def stat_month (t : String) (d : Draft) : BotState × Draft :=
  if isStartText t then (.CHOOSE_ACTION, emptyDraft)
  else (.STAT_GROUP_CURRENCY, { d with stat_month := some t })

/-- `show_statistics_result` caches nonempty conversion details in the
draft before rendering. -/
def storeDetails (env : Env) (d : Draft) : Draft :=
  if env.convDetails = [] then d else { d with conversion_details := some env.convDetails }

def stat_group_currency (env : Env) (t : String) (d : Draft) : BotState × Draft :=
  if isStartText t then (.CHOOSE_ACTION, emptyDraft)
  else
    let d1 := { d with stat_group_currency := some (t == "Yes") }
    if t == "Yes" then (.CHOOSE_ACTION, storeDetails env d1)
    else (.STAT_CONVERT_CURRENCY, d1)

def stat_convert_currency (env : Env) (t : String) (d : Draft) : BotState × Draft :=
  if isStartText t then (.CHOOSE_ACTION, emptyDraft)
  else (.STAT_SHOW_DETAILS, storeDetails env { d with stat_convert_to := some t })

def stat_show_details (t : String) (d : Draft) : BotState × Draft :=
  if isStartText t then (.CHOOSE_ACTION, emptyDraft)
  else (.CHOOSE_ACTION, d)

/-- One conversation-handler dispatch: routes the inbound action to the
handler registered for the current state; an action of the wrong kind for
the state is ignored by the framework (state and draft unchanged). -/
def step (env : Env) : BotState → Inp → Draft → BotState × Draft
  | .CHOOSE_ACTION, .msg t, d => choose_action t d
  | .CHOOSE_CAT, .msg t, d => choose_cat t d
  | .TYPING_AMT, .msg t, d => type_amount t d
  | .CHOOSE_CUR, .msg t, d => choose_cur env t d
  | .TYPING_CMNT, .msg t, d => type_comment (.msg t) d
  | .TYPING_CMNT, .cb c, d =>
    if c == "skip" || c == "to_start" then type_comment (.cb c) d else (.TYPING_CMNT, d)
  | .CHOOSE_DT, .cb c, d => choose_dt c d
  | .TYPING_DT, .msg t, d => type_dt env t d
  | .STAT_CAT, .msg t, d => stat_cat t d
  | .STAT_TYPE, .msg t, d => stat_type t d
  | .STAT_DATE_FROM, .msg t, d => stat_date_from env t d
  | .STAT_DATE_TO, .msg t, d => stat_date_to env t d
  | .STAT_MONTH, .msg t, d => stat_month t d
  | .STAT_GROUP_CURRENCY, .msg t, d => stat_group_currency env t d
  | .STAT_CONVERT_CURRENCY, .msg t, d => stat_convert_currency env t d
  | .STAT_SHOW_DETAILS, .msg t, d => stat_show_details t d
  | s, _, d => (s, d)

/-- The to-start signal as each state receives it: the to-start button
text in every message-handler state, the `to_start` callback token in the
callback-driven date-choice state and the comment state. -/
def recognizedToStart : BotState → Inp → Bool
  | .CHOOSE_DT, .cb c => c == "to_start"
  | .CHOOSE_DT, .msg _ => false
  | .TYPING_CMNT, .cb c => c == "to_start"
  | _, .msg t => isStartText t
  | _, .cb _ => false

/-- One appended spreadsheet cell: a string or the float stored as the
draft amount. -/
inductive Cell
  | s (v : String)
  | n (v : PyFloat)
deriving DecidableEq, Repr

/-- `save_row`: the committed row, in the fixed column order
date, month, category, amount, currency, spender, comment; `none` models
the exception raised when the date does not parse or a required draft key
is missing. -/
def save_row (d : Draft) (dateStr : String) : Option (List Cell) :=
  match month_of dateStr, d.cat, d.amt, d.cur, d.spender with
  | some m, some c, some a, some cu, some w =>
    some [.s dateStr, .s m, .s c, .n a, .s cu, .s w, .s (d.comment.getD "")]
  | _, _, _, _, _ => none

/-! ## Category-breakdown percentages -/

/-- Modelled from the spec: the category-breakdown percentage computation
is absent from src/bot.py (the spec draws it from a draft variant of the
bot outside src/).  Per the spec, a category percentage divides the
category subtotal by the grand total and reports 0 when the grand total
is zero. -/
def categoryPercentage (subtotal total : Rat) : Rat :=
  if ratIsZero total then mkRat 0 1 else ratMul (ratDiv subtotal total) (mkRat 100 1)

/-- Modelled from the spec: percentage-of-total for every category of a
breakdown, guarded against a zero grand total. -/
def categoryBreakdown (items : List (String × Rat)) : List (String × Rat) :=
  items.map (fun p => (p.1, categoryPercentage p.2 (ratSum (items.map (fun q => q.2)))))

/-! ## Concrete fixtures used by the witness theorems -/

def snapA : Snapshot :=
  ⟨["Date", "Month", "Category", "Amount", "Currency"],
   [[("Date", "01.07.2025"), ("Month", "2025-07"), ("Category", "Food"),
     ("Amount", "100"), ("Currency", "₽")],
    [("Date", "02.07.2025"), ("Month", "2025-07"), ("Category", "Food"),
     ("Amount", "10"), ("Currency", "€")]]⟩

def rowA1 : WRow := ⟨mkRat 100 1, "₽", "2025-07", "Food", "01.07.2025"⟩

def rowA2 : WRow := ⟨mkRat 10 1, "€", "2025-07", "Food", "02.07.2025"⟩

def rowsA : List WRow := [rowA1, rowA2]

def draftA : Draft :=
  { emptyDraft with
    cat := some "Food", amt := some (.fin (mkRat 1200 1)), cur := some "₽",
    spender := some "Azat" }

def envA : Env := ⟨"Azat", fun _ => none, []⟩

/-! ## Helper lemmas -/

theorem normalizeComma_commaVariant (s : String) (h : ',' ∉ s.data) :
    normalizeComma (commaVariant s) = normalizeComma s := by
  unfold normalizeComma commaVariant
  apply congrArg String.mk
  rw [show (String.mk (s.data.map fun c => if c = '.' then ',' else c)).data =
        s.data.map (fun c => if c = '.' then ',' else c) from rfl]
  rw [List.map_map]
  apply List.map_congr_left
  intro c hc
  have hcne : c ≠ ',' := fun e => h (e ▸ hc)
  by_cases h1 : c = '.'
  · subst h1; simp
  · simp [Function.comp, h1, hcne]

/-! ## The claims -/

/-- C5: for every date string in the fixed storage format, the month key
computed at commit time equals the year-month truncation of that date,
and the committed row carries exactly that key next to the date: the
month field of an appended record is functionally determined by its date
field (and `month_of`, being a function, is deterministic). -/
theorem c5_month_key_truncation (s : String) (x : YMD) (h : parseDate s = some x)
    (dr : Draft) (c : String) (a : PyFloat) (cu spender : String)
    (hc : dr.cat = some c) (ha : dr.amt = some a) (hcu : dr.cur = some cu)
    (hw : dr.spender = some spender) :
    month_of s = some (yearMonthStr x.y x.m) ∧
    save_row dr s =
      some [.s s, .s (yearMonthStr x.y x.m), .s c, .n a, .s cu, .s spender,
        .s (dr.comment.getD "")] := by
  have hm : month_of s = some (yearMonthStr x.y x.m) := by
    unfold month_of; rw [h]; rfl
  refine ⟨hm, ?_⟩
  unfold save_row
  rw [hm, hc, ha, hcu, hw]

theorem c5_month_key_truncation_witness :
    month_of "01.07.2025" = some (yearMonthStr 2025 7) ∧
    save_row draftA "01.07.2025" =
      some [.s "01.07.2025", .s (yearMonthStr 2025 7), .s "Food", .n (.fin (mkRat 1200 1)),
        .s "₽", .s "Azat", .s (draftA.comment.getD "")] :=
  c5_month_key_truncation "01.07.2025" ⟨2025, 7, 1⟩ (by decide) draftA "Food"
    (.fin (mkRat 1200 1)) "₽" "Azat" rfl rfl rfl rfl

/-- C6 counterexample: an explicit reload whose source is reachable but
yields no categories leaves the effective category list empty instead of
falling back to the default set, so the claim fails as stated for the
reload path. -/
theorem c6_reload_empty_counterexample :
    reload_cats (some []) = [] ∧ reload_cats (some []) ≠ defaultCats := by decide

/-- C6 amended: at process start an unreachable or empty category source
degrades to the fixed default list, and an explicit reload degrades to
the default list when the source is unreachable; but a reload whose
source is reachable and yields no categories leaves the list empty. -/
theorem c6_category_fallbacks :
    (∀ connOk, initialize_categories connOk none = defaultCats) ∧
    (∀ connOk src, load_categories src = [] → initialize_categories connOk src = defaultCats) ∧
    reload_cats none = defaultCats := by
  refine ⟨?_, ?_, rfl⟩
  · intro connOk; cases connOk <;> rfl
  · intro connOk src h
    cases connOk
    · rfl
    · simp [initialize_categories, h]

theorem c6_category_fallbacks_witness :
    initialize_categories true (some []) = defaultCats :=
  c6_category_fallbacks.2.1 true (some []) (by decide)

/-- C7: an amount written with a comma as the decimal separator parses to
the same numeric value as the same amount written with a dot, both for
the amount-entry step of the dialogue (`type_amount`, whose `float()`
call is modelled by `pyFloatBuiltin`) and for the stats engine amount
coercion (`coerceAmount`): both variants normalize to the identical
string before parsing, so the equality is independent of the parser. -/
theorem c7_comma_dot_equivalence (s : String) (d : Draft) (hnc : ',' ∉ s.data)
    (hs1 : isStartText s = false) (hs2 : isStartText (commaVariant s) = false) :
    pyFloat (normalizeComma (commaVariant s)) = pyFloat (normalizeComma s) ∧
    coerceAmount (commaVariant s) = coerceAmount s ∧
    type_amount (commaVariant s) d = type_amount s d ∧
    pyFloatBuiltin (normalizeComma (commaVariant s)) = pyFloatBuiltin (normalizeComma s) := by
  have key := normalizeComma_commaVariant s hnc
  refine ⟨by rw [key], ?_, ?_, by rw [key]⟩
  · unfold coerceAmount; rw [key]
  · simp [type_amount, key, hs1, hs2]

theorem c7_comma_dot_equivalence_witness :
    pyFloat (normalizeComma (commaVariant "3.5")) = pyFloat (normalizeComma "3.5") ∧
    coerceAmount (commaVariant "3.5") = coerceAmount "3.5" ∧
    type_amount (commaVariant "3.5") emptyDraft = type_amount "3.5" emptyDraft ∧
    pyFloatBuiltin (normalizeComma (commaVariant "3.5")) =
      pyFloatBuiltin (normalizeComma "3.5") :=
  c7_comma_dot_equivalence "3.5" emptyDraft (by decide) (by decide) (by decide)

/-- C2 counterexample: the input "-5" parses as a float, is accepted and
stored by the amount handler, and the dialogue moves to the currency
step, instead of being rejected with a re-prompt and an unchanged draft
as the claim states for a negative number. -/
theorem c2_negative_amount_counterexample :
    type_amount "-5" emptyDraft =
      (.CHOOSE_CUR, { emptyDraft with amt := some (.fin (mkRat (-5) 1)) }) ∧
    type_amount "-5" emptyDraft ≠ (.TYPING_AMT, emptyDraft) := by decide

/-- C2 amended: apart from the to-start override, the amount handler
accepts the input and stores its parsed value exactly when the `float()`
conversion succeeds (after replacing the comma with a dot): decimal
numbers of either sign, underscore-grouped literals, and the special
`inf`/`nan` forms; only on a failing conversion does it re-prompt, stay
in the amount state and leave the draft unchanged.  There is no
non-negativity check. -/
theorem c2_amount_accepts_any_float (t : String) (d : Draft)
    (h : isStartText t = false) :
    (∀ v, pyFloatBuiltin (normalizeComma t) = some v →
      type_amount t d = (.CHOOSE_CUR, { d with amt := some v })) ∧
    (pyFloatBuiltin (normalizeComma t) = none → type_amount t d = (.TYPING_AMT, d)) := by
  constructor
  · intro v hv; simp [type_amount, h, hv]
  · intro hv; simp [type_amount, h, hv]

theorem c2_amount_accepts_any_float_witness :
    type_amount "2,5" emptyDraft =
      (.CHOOSE_CUR, { emptyDraft with amt := some (.fin (mkRat 5 2)) }) ∧
    type_amount "nan" emptyDraft = (.CHOOSE_CUR, { emptyDraft with amt := some .nan }) ∧
    type_amount "1_0" emptyDraft =
      (.CHOOSE_CUR, { emptyDraft with amt := some (.fin (mkRat 10 1)) }) ∧
    type_amount "abc" emptyDraft = (.TYPING_AMT, emptyDraft) :=
  ⟨(c2_amount_accepts_any_float "2,5" emptyDraft (by decide)).1 (.fin (mkRat 5 2)) (by decide),
   (c2_amount_accepts_any_float "nan" emptyDraft (by decide)).1 .nan (by decide),
   (c2_amount_accepts_any_float "1_0" emptyDraft (by decide)).1 (.fin (mkRat 10 1)) (by decide),
   (c2_amount_accepts_any_float "abc" emptyDraft (by decide)).2 (by decide)⟩

/-- C8 (modelled from the spec): when the grand total is zero every
category percentage is reported as zero rather than raising a
division-by-zero error, and with a nonzero total each percentage is the
category subtotal divided by the grand total. -/
theorem c8_zero_total_guard (items : List (String × Rat)) :
    (ratSum (items.map (fun q => q.2)) = mkRat 0 1 →
      ∀ q ∈ categoryBreakdown items, q.2 = mkRat 0 1) ∧
    (∀ sub total : Rat, ratIsZero total = false →
      categoryPercentage sub total = ratMul (ratDiv sub total) (mkRat 100 1)) := by
  constructor
  · intro h q hq
    unfold categoryBreakdown at hq
    obtain ⟨p, hp, hpe⟩ := List.mem_map.1 hq
    rw [← hpe, h]
    show categoryPercentage p.2 (mkRat 0 1) = mkRat 0 1
    unfold categoryPercentage
    exact if_pos (by decide)
  · intro sub total h
    simp [categoryPercentage, h]

/-- C3: in every dialogue state and for every draft, the to-start signal
recognized by that state (the to-start button text for message handlers,
the to-start callback token for callback handlers) clears the draft
entirely and moves the dialogue to the initial action-choice state; each
handler performs this check before any of its state-specific logic, so
the result does not depend on the rest of the input handling. -/
theorem c3_to_start_override (env : Env) (st : BotState) (i : Inp) (d : Draft)
    (h : recognizedToStart st i = true) :
    step env st i d = (.CHOOSE_ACTION, emptyDraft) := by
  cases st <;> cases i <;>
    simp only [recognizedToStart] at h <;>
    simp_all [step, choose_action, choose_cat, type_amount, choose_cur, type_comment,
      choose_dt, type_dt, stat_cat, stat_type, stat_date_from, stat_date_to, stat_month,
      stat_group_currency, stat_convert_currency, stat_show_details]

theorem c3_to_start_override_witness :
    step envA .STAT_MONTH (.msg "To start") draftA = (.CHOOSE_ACTION, emptyDraft) :=
  c3_to_start_override envA .STAT_MONTH (.msg "To start") draftA (by decide)

theorem c8_zero_total_guard_witness :
    ("Food", mkRat 0 1).2 = mkRat 0 1 ∧
    categoryPercentage (mkRat 5 1) (mkRat 10 1) =
      ratMul (ratDiv (mkRat 5 1) (mkRat 10 1)) (mkRat 100 1) :=
  ⟨(c8_zero_total_guard [("Food", mkRat 0 1), ("Other", mkRat 0 1)]).1 (by decide)
      ("Food", mkRat 0 1) (by decide),
   (c8_zero_total_guard []).2 (mkRat 5 1) (mkRat 10 1) (by decide)⟩

theorem convertLoop_fail_of_mem (rate : RateFn) (tgt : String) :
    ∀ (cs : List String) (rows : List WRow) (det : Details),
      (∃ c, c ∈ cs ∧ c ≠ tgt ∧ rate c tgt = none) →
      ∃ c0, convertLoop rate tgt cs rows det = .fail c0 := by
  intro cs
  induction cs with
  | nil =>
    rintro rows det ⟨c, hc, -, -⟩
    exact absurd hc (List.not_mem_nil c)
  | cons a as ih =>
    rintro rows det ⟨c, hc, hct, hr⟩
    rw [convertLoop]
    by_cases hat : a = tgt
    · rw [if_pos hat]
      apply ih
      refine ⟨c, ?_, hct, hr⟩
      rcases List.mem_cons.1 hc with rfl | h2
      · exact absurd hat hct
      · exact h2
    · rw [if_neg hat]
      rcases List.mem_cons.1 hc with rfl | h2
      · rw [hr]
        exact ⟨c, rfl⟩
      · cases hra : rate a tgt with
        | none => exact ⟨a, rfl⟩
        | some r =>
          by_cases hr0 : ratIsZero r = true
          · simp only [hr0, if_true]
            exact ⟨a, rfl⟩
          · simp only [hr0, if_false]
            exact ih _ _ ⟨c, h2, hct, hr⟩

theorem statsCore_rateFailure (rate : RateFn) (cols : List String) (cat : String)
    (group : Bool) (tgt : String) (rows : List WRow) (c : String)
    (hcat : cat = "All" ∨ "Category" ∈ cols)
    (hcur : "Currency" ∈ cols)
    (hc : c ∈ dedupFirst ((catFilter cat rows).map (fun w => w.currency)))
    (hct : c ≠ tgt) (hr : rate c tgt = none) :
    ∃ c0, statsCore rate cols cat group (some tgt) rows = (.rateFailure c0 tgt, []) := by
  have hne : ¬ catFilter cat rows = [] := by
    intro he
    rw [he] at hc
    exact absurd hc (by simp [dedupFirst, dedupFirstAux])
  unfold statsCore
  rw [if_neg (by rintro ⟨h1, h2⟩; rcases hcat with h3 | h3; exacts [h1 h3, h2 h3])]
  rw [if_neg hne]
  simp only []
  rw [if_neg (by exact fun hno => hno hcur)]
  obtain ⟨c0, h0⟩ :=
    convertLoop_fail_of_mem rate tgt
      (dedupFirst ((catFilter cat rows).map (fun w => w.currency)))
      (catFilter cat rows) [] ⟨c, hc, hct, hr⟩
  rw [h0]
  exact ⟨c0, rfl⟩

theorem compute_stats_rateFailure (rate : RateFn) (snap : Snapshot) (cat : String)
    (month dateFrom dateTo : Option String) (group : Bool) (tgt : String)
    (rows : List WRow) (c : String)
    (hp : periodStage snap month dateFrom dateTo = .inr rows)
    (hcat : cat = "All" ∨ "Category" ∈ normCols snap)
    (hcur : "Currency" ∈ normCols snap)
    (htgt : tgt ≠ "")
    (hc : c ∈ dedupFirst ((catFilter cat rows).map (fun w => w.currency)))
    (hct : c ≠ tgt) (hr : rate c tgt = none) :
    ∃ c0,
      compute_stats rate snap cat month dateFrom dateTo group (some tgt) =
        (.rateFailure c0 tgt, []) := by
  unfold compute_stats
  rw [hp]
  have hnt : normOpt (some tgt) = some tgt := by simp [normOpt, htgt]
  rw [hnt]
  exact statsCore_rateFailure rate (normCols snap) cat group tgt rows c hcat hcur hc hct hr

/-- C1: whenever the rate lookup reports unavailable for some distinct
source currency of the filtered rows other than the target, the whole
computation aborts: `compute_stats` returns the conversion-failure
message together with an empty conversion-details mapping, and the
summary (being the failure constructor) carries no partially converted
amount. -/
theorem c1_all_or_nothing_conversion (rate : RateFn) (snap : Snapshot) (cat : String)
    (month dateFrom dateTo : Option String) (group : Bool) (tgt : String)
    (rows : List WRow) (c : String)
    (hp : periodStage snap month dateFrom dateTo = .inr rows)
    (hcat : cat = "All" ∨ "Category" ∈ normCols snap)
    (hcur : "Currency" ∈ normCols snap)
    (htgt : tgt ≠ "")
    (hc : c ∈ dedupFirst ((catFilter cat rows).map (fun w => w.currency)))
    (hct : c ≠ tgt) (hr : rate c tgt = none) :
    ∃ c0,
      compute_stats rate snap cat month dateFrom dateTo group (some tgt) =
        (.rateFailure c0 tgt, []) :=
  compute_stats_rateFailure rate snap cat month dateFrom dateTo group tgt rows c
    hp hcat hcur htgt hc hct hr

theorem c1_all_or_nothing_conversion_witness :
    ∃ c0,
      compute_stats (fun _ _ => none) snapA "All" (some "2025-07") none none true (some "¥") =
        (.rateFailure c0 "¥", []) :=
  c1_all_or_nothing_conversion (fun _ _ => none) snapA "All" (some "2025-07") none none
    true "¥" rowsA "₽" (by decide) (Or.inl rfl) (by decide) (by decide) (by decide)
    (by decide) rfl

/-- C4: a query whose period and category filters match no rows returns
the literal no-data sentinel with an empty conversion-details mapping as
a successful result, while a snapshot with no amount-equivalent column
returns the descriptive missing-column error instead. -/
theorem c4_no_data_sentinel (rate : RateFn) (snap : Snapshot) (cat : String)
    (month dateFrom dateTo : Option String) (group : Bool) (tgt : Option String)
    (rows : List WRow)
    (hp : periodStage snap month dateFrom dateTo = .inr rows)
    (hcat : cat = "All" ∨ "Category" ∈ normCols snap)
    (he : catFilter cat rows = []) :
    compute_stats rate snap cat month dateFrom dateTo group tgt = (.noData, []) ∧
    ∀ (snap2 : Snapshot) (month2 dateFrom2 dateTo2 : Option String),
      "Amount" ∉ normCols snap2 →
      compute_stats rate snap2 cat month2 dateFrom2 dateTo2 group tgt =
        (.colError "Amount", []) := by
  constructor
  · unfold compute_stats
    rw [hp]
    simp only []
    unfold statsCore
    rw [if_neg (by rintro ⟨h1, h2⟩; rcases hcat with h3 | h3; exacts [h1 h3, h2 h3])]
    rw [if_pos he]
  · intro snap2 month2 dateFrom2 dateTo2 hno
    have h2 : periodStage snap2 month2 dateFrom2 dateTo2 = .inl (.colError "Amount") := by
      unfold periodStage
      rw [if_pos hno]
    unfold compute_stats
    rw [h2]

theorem c4_no_data_sentinel_witness :
    compute_stats (fun _ _ => none) snapA "Transport" (some "2025-07") none none true none =
      (.noData, []) ∧
    compute_stats (fun _ _ => none) ⟨["Date"], []⟩ "Transport" none none none true none =
      (.colError "Amount", []) := by
  have T :=
    c4_no_data_sentinel (fun _ _ => none) snapA "Transport" (some "2025-07") none none
      true none rowsA (by decide) (Or.inr (by decide)) (by decide)
  exact ⟨T.1, T.2 ⟨["Date"], []⟩ none none none (by decide)⟩

/-- C9: with currency grouping off and no conversion target, the result
for a nonempty filtered record set is one grand total summing the
amounts of all remaining rows regardless of their currencies, labelled
with the currency of the first remaining row. -/
theorem c9_ungrouped_mixed_total (rate : RateFn) (snap : Snapshot) (cat : String)
    (month dateFrom dateTo : Option String) (rows : List WRow) (w : WRow)
    (ws : List WRow)
    (hp : periodStage snap month dateFrom dateTo = .inr rows)
    (hcat : cat = "All" ∨ "Category" ∈ normCols snap)
    (hcur : "Currency" ∈ normCols snap)
    (hf : catFilter cat rows = w :: ws) :
    compute_stats rate snap cat month dateFrom dateTo false none =
      (.total (ratSum ((w :: ws).map (fun r => r.amount))) w.currency, []) := by
  unfold compute_stats
  rw [hp]
  simp only []
  unfold statsCore
  rw [if_neg (by rintro ⟨h1, h2⟩; rcases hcat with h3 | h3; exacts [h1 h3, h2 h3])]
  rw [if_neg (by rw [hf]; exact fun he => List.cons_ne_nil w ws he)]
  simp only [normOpt]
  unfold finalize
  rw [if_neg Bool.false_ne_true]
  simp only []
  rw [if_neg (by exact fun hno => hno hcur)]
  rw [hf]

theorem c9_ungrouped_mixed_total_witness :
    compute_stats (fun _ _ => none) snapA "All" (some "2025-07") none none false none =
      (.total (mkRat 110 1) "₽", []) := by
  rw [c9_ungrouped_mixed_total (fun _ _ => none) snapA "All" (some "2025-07") none none
    rowsA rowA1 [rowA2] (by decide) (Or.inl rfl) (by decide) (by decide)]
  decide

/-- C10: a rate lookup whose HTTP response has a missing rate entry or a
rate of exactly zero yields the unavailable sentinel rather than zero,
and `compute_stats` consequently aborts the conversion with the failure
message (and empty details) rather than multiplying any amount by zero. -/
theorem c10_zero_rate_unavailable (fetch : String → Option HttpResp)
    (fromCur toCur : String) (resp : HttpResp)
    (hne : fromCur ≠ toCur)
    (hf : fetch (currencyCode fromCur) = some resp)
    (hst : resp.status = 200)
    (hr : resp.rates.find? (fun p => p.1 == currencyCode toCur) = none ∨
          ∃ p, resp.rates.find? (fun p => p.1 == currencyCode toCur) = some p ∧
            ratIsZero p.2 = true)
    (snap : Snapshot) (cat : String) (month dateFrom dateTo : Option String)
    (group : Bool) (rows : List WRow)
    (hp : periodStage snap month dateFrom dateTo = .inr rows)
    (hcat : cat = "All" ∨ "Category" ∈ normCols snap)
    (hcur : "Currency" ∈ normCols snap)
    (htgt : toCur ≠ "")
    (hc : fromCur ∈ dedupFirst ((catFilter cat rows).map (fun w => w.currency))) :
    get_exchange_rate fetch fromCur toCur = none ∧
    ∃ c0,
      compute_stats (get_exchange_rate fetch) snap cat month dateFrom dateTo group
        (some toCur) = (.rateFailure c0 toCur, []) := by
  have h1 : get_exchange_rate fetch fromCur toCur = none := by
    unfold get_exchange_rate
    rw [if_neg hne, hf]
    simp only []
    rw [if_pos hst]
    rcases hr with h | ⟨p, hfind, hz⟩
    · rw [h]
    · rw [hfind]
      simp only []
      rw [if_pos hz]
  exact ⟨h1,
    compute_stats_rateFailure (get_exchange_rate fetch) snap cat month dateFrom dateTo
      group toCur rows fromCur hp hcat hcur htgt hc hne h1⟩

def fetchZ : String → Option HttpResp := fun _ => some ⟨200, [("JPY", mkRat 0 1)]⟩

theorem c10_zero_rate_unavailable_witness :
    get_exchange_rate fetchZ "₽" "¥" = none ∧
    ∃ c0,
      compute_stats (get_exchange_rate fetchZ) snapA "All" (some "2025-07") none none true
        (some "¥") = (.rateFailure c0 "¥", []) :=
  c10_zero_rate_unavailable fetchZ "₽" "¥" ⟨200, [("JPY", mkRat 0 1)]⟩ (by decide) rfl rfl
    (Or.inr ⟨("JPY", mkRat 0 1), by decide, by decide⟩) snapA "All" (some "2025-07") none
    none true rowsA (by decide) (Or.inl rfl) (by decide) (by decide) (by decide)

end FamilyBot
